import Mathlib

/-
Verification of the Node_VAD_Twilio voice pipeline: a shallow embedding of
the mu-law codec, WAV framing, voice-activity detection, temporal smoothing,
utterance assembly and session sweep logic, with theorems checking the
spec's testable properties against the embedded code.

Conventions used throughout:
- JS numbers are modelled as exact rationals; decimal literals such as 0.4
  are written as the corresponding rational (2/5).
- Byte buffers are lists of naturals (each < 256); 16-bit PCM data is
  modelled either as lists of Int samples or as little-endian byte lists,
  converted explicitly where the code reads or writes Int16LE values.
- Code paths that throw at runtime are modelled with Option, none standing
  for a thrown error.
-/

/-- Exponent-segment search of pcmToMulawSample (identical in
src/utils/audioUtils.js and src/unnamed/part_004): the smallest exp in 0..7
with biased magnitude at most 0x1F <<< (exp + 3), else 7. -/
def mulawExponent (m : Nat) : Nat :=
  if m ≤ 248 then 0
  else if m ≤ 496 then 1
  else if m ≤ 992 then 2
  else if m ≤ 1984 then 3
  else if m ≤ 3968 then 4
  else if m ≤ 7936 then 5
  else if m ≤ 15872 then 6
  else 7

/-- pcmToMulawSample from src/utils/audioUtils.js (lines 152-172) and
src/unnamed/part_004 (lines 244-264), which are textually identical:
sign from pcm < 0, add bias 0x84 to the magnitude, clamp at MULAW_MAX =
0x1FFF, pick the exponent segment, take 4 mantissa bits, pack and
complement.  The JS function returns the complement as a signed int32; the
byte that is stored into the outgoing buffer is its low 8 bits, namely
255 - (sign + 16*exponent + mantissa), which is what we return. -/
def pcmToMulawSample (pcm : Int) : Nat :=
  let sign : Nat := if pcm < 0 then 128 else 0
  let mag : Nat := (if pcm < 0 then -pcm else pcm).toNat
  let biased : Nat := min (mag + 132) 8191
  let e : Nat := mulawExponent biased
  let m : Nat := biased / 2 ^ (e + 3) % 16
  255 - (sign + 16 * e + m)

namespace AudioUtils

/-- mulawToPcmSample from src/utils/audioUtils.js (lines 137-150): complement
the byte, split sign/exponent/mantissa, reconstruct mantissa <<< (exponent+3)
plus bias 0x84, apply sign.  Note that this variant has no implicit leading
mantissa bit and no clamping.  For a byte b the JS complement-and-mask
operations read the fields of c = 255 - b. -/
def mulawToPcmSample (b : Nat) : Int :=
  let c : Nat := 255 - b % 256
  let sign : Bool := 128 ≤ c
  let e : Nat := c / 16 % 8
  let m : Nat := c % 16
  let sample : Int := (m * 2 ^ (e + 3) + 132 : Nat)
  if sign then -sample else sample

/-- mulawToPcm from src/utils/audioUtils.js (lines 112-123): elementwise
decode of each mu-law byte, one 16-bit sample out per byte in.  The loop
performs no validation of any kind. -/
def mulawToPcm : List Nat → List Int
  | [] => []
  | b :: bs => mulawToPcmSample b :: mulawToPcm bs

end AudioUtils

/-- Buffer.readInt16LE: two's-complement 16-bit value from two bytes. -/
def readInt16LE (b0 b1 : Nat) : Int :=
  let v : Nat := b0 % 256 + 256 * (b1 % 256)
  if v < 32768 then (v : Int) else (v : Int) - 65536

/-- The sequence of Int16LE reads performed by a loop stepping 2 bytes at a
time over a byte buffer (used by pcmToMulaw, hasVoiceInWav and the VAD
feature loops; all of those loops stop before an incomplete final pair or
are only reached with even-length input). -/
def pcmSamplesOfBytes : List Nat → List Int
  | b0 :: b1 :: rest => readInt16LE b0 b1 :: pcmSamplesOfBytes rest
  | _ => []

namespace AudioUtils

/-- pcmToMulaw from src/utils/audioUtils.js (lines 125-135): allocates a
buffer of length pcmData.length / 2 and encodes each Int16LE sample.  For
odd-length input the fractional allocation size (and the final
out-of-bounds readInt16LE) throws at runtime, modelled as none; no
MalformedFrame-style validation exists. -/
def pcmToMulaw (bytes : List Nat) : Option (List Nat) :=
  if bytes.length % 2 = 0 then
    some ((pcmSamplesOfBytes bytes).map pcmToMulawSample)
  else
    none

end AudioUtils

namespace Part004

/-- mulawToPcmSample from src/unnamed/part_004 (lines 221-242), identical to
the one in src/services/audioProcessor.js (lines 200-210 and 730-740):
complement and mask to 8 bits, split fields, special-case exponent 0 as
(mantissa <<< 1) + bias, otherwise ((mantissa ||| 0x10) <<< (exponent+3)) +
bias, apply sign, clamp to the int16 range. -/
def mulawToPcmSample (b : Nat) : Int :=
  let c : Nat := 255 - b % 256
  let sign : Bool := 128 ≤ c
  let e : Nat := c / 16 % 8
  let m : Nat := c % 16
  let sample : Int :=
    if e = 0 then (m * 2 + 132 : Nat)
    else ((m + 16) * 2 ^ (e + 3) + 132 : Nat)
  let result : Int := if sign then -sample else sample
  max (-32768) (min 32767 result)

end Part004

/-- Little-endian 16-bit field as written by Buffer.writeUInt16LE. -/
def u16le (n : Nat) : List Nat :=
  [n % 256, n / 256 % 256]

/-- Little-endian 32-bit field as written by Buffer.writeUInt32LE. -/
def u32le (n : Nat) : List Nat :=
  [n % 256, n / 256 % 256, n / 65536 % 256, n / 16777216 % 256]

/-- createWavBuffer from src/services/audioProcessor.js (lines 212-230),
textually identical to createEnhancedWavBuffer (lines 595-620) and to
createWavBuffer in src/unnamed/part_004 (lines 266-289): a 44-byte
RIFF/WAVE/fmt/data header followed by the PCM payload.  The byte values 82
73 70 70, 87 65 86 69, 102 109 116 32 and 100 97 116 97 are the ASCII
strings RIFF, WAVE, fmt-space and data written by buffer.write. -/
def createWavBuffer (pcmData : List Nat) (sampleRate : Nat) : List Nat :=
  [82, 73, 70, 70] ++ u32le (36 + pcmData.length) ++
  [87, 65, 86, 69] ++ [102, 109, 116, 32] ++
  u32le 16 ++ u16le 1 ++ u16le 1 ++ u32le sampleRate ++ u32le (sampleRate * 2) ++
  u16le 2 ++ u16le 16 ++ [100, 97, 116, 97] ++ u32le pcmData.length ++ pcmData

/-- Buffer.readUInt32LE at a byte offset. -/
def readUInt32LE (buf : List Nat) (off : Nat) : Nat :=
  match buf.drop off with
  | b0 :: b1 :: b2 :: b3 :: _ => b0 + 256 * b1 + 65536 * b2 + 16777216 * b3
  | _ => 0

namespace VADDetector

/-- The mutable numeric state of the VADDetector class in
src/utils/vadDetector.js that the embedded methods read or write. -/
structure VADState where
  frameSize : Nat
  threshold : ℚ
  adaptiveThreshold : ℚ
  backgroundNoise : ℚ
  adaptationRate : ℚ
  longTermNoise : ℚ
  noiseUpdateCounter : Nat
  minEnergy : ℚ
  maxEnergy : ℚ
  voiceConfidence : ℚ
  spectralBalance : ℚ
  voiceActivityStrength : Nat
deriving Repr, DecidableEq

/-- The constructor of VADDetector (src/utils/vadDetector.js lines 2-40)
with default options: threshold 600, frameSize 320, backgroundNoise 80,
adaptationRate 0.02, longTermNoise 80, adaptiveThreshold initialised to
threshold, minEnergy 250, maxEnergy 25000. -/
def initState : VADState where
  frameSize := 320
  threshold := 600
  adaptiveThreshold := 600
  backgroundNoise := 80
  adaptationRate := 1/50
  longTermNoise := 80
  noiseUpdateCounter := 0
  minEnergy := 250
  maxEnergy := 25000
  voiceConfidence := 0
  spectralBalance := 0
  voiceActivityStrength := 0

/-- The part of updateAdaptiveThreshold after the early return (lines
146-154): bump the counter, every 50th frame blend longTermNoise toward
backgroundNoise, then set
adaptiveThreshold = min (max (longTermNoise*4) (threshold*0.5)) (threshold*2). -/
def updateAdaptiveThresholdTail (s : VADState) : VADState :=
  let counter := s.noiseUpdateCounter + 1
  let ltn : ℚ :=
    if counter % 50 = 0 then s.longTermNoise * (9/10) + s.backgroundNoise * (1/10)
    else s.longTermNoise
  let base : ℚ := max (ltn * 4) (s.threshold * (1/2))
  { s with noiseUpdateCounter := counter, longTermNoise := ltn,
           adaptiveThreshold := min base (s.threshold * 2) }

/-- updateAdaptiveThreshold from src/utils/vadDetector.js (lines 135-155):
when rms < adaptiveThreshold*0.4 the background noise decays toward rms and
execution continues; when rms > adaptiveThreshold*2 the method returns
early; otherwise it continues unchanged. -/
def updateAdaptiveThreshold (s : VADState) (currentRms : ℚ) : VADState :=
  if currentRms < s.adaptiveThreshold * (2/5) then
    updateAdaptiveThresholdTail
      { s with backgroundNoise :=
          s.backgroundNoise * (1 - s.adaptationRate * (1/2)) +
          currentRms * (s.adaptationRate * (1/2)) }
  else if currentRms > s.adaptiveThreshold * 2 then
    s
  else
    updateAdaptiveThresholdTail s

/-- Feeding a whole sequence of rms values to the adaptive threshold
tracker, starting from the constructor state. -/
def trackRms (l : List ℚ) : VADState :=
  l.foldl updateAdaptiveThreshold initState

/-- The feature vector destructured by advancedVoiceDetection (the fields
of the object returned by extractEnhancedFeatures that the scorer reads). -/
structure Features where
  rms : ℚ
  zcr : ℚ
  spectralCentroid : ℚ
  peakLevel : ℚ
  spectralBalance : ℚ
  energyVariance : ℚ
deriving Repr, DecidableEq

/-- The seven additive checks of advancedVoiceDetection
(src/utils/vadDetector.js lines 164-225), accumulating the integer
voiceScore and the raw (uncapped) confidence in source order. -/
def voiceChecks (s : VADState) (f : Features) : Nat × ℚ :=
  let p1 : Nat × ℚ :=
    if f.rms > s.adaptiveThreshold then (4, 3/10)
    else if f.rms > s.adaptiveThreshold * (7/10) then (2, 1/10)
    else (0, 0)
  let p2 : Nat × ℚ :=
    if f.zcr > 1/100 ∧ f.zcr < 35/100 then
      if f.zcr > 3/100 ∧ f.zcr < 15/100 then (p1.1 + 3 + 1, p1.2 + 2/10 + 1/10)
      else (p1.1 + 3, p1.2 + 2/10)
    else p1
  let p3 : Nat × ℚ :=
    if f.spectralCentroid > 150 ∧ f.spectralCentroid < 3500 then
      if f.spectralCentroid > 400 ∧ f.spectralCentroid < 2000 then
        (p2.1 + 2 + 1, p2.2 + 15/100 + 1/10)
      else (p2.1 + 2, p2.2 + 15/100)
    else p2
  let p4 : Nat × ℚ :=
    if f.spectralBalance > 3/10 ∧ f.spectralBalance < 8/10 then
      (p3.1 + 2, p3.2 + 15/100)
    else p3
  let p5 : Nat × ℚ :=
    if f.peakLevel > s.minEnergy ∧ f.peakLevel < s.maxEnergy then
      (p4.1 + 1, p4.2 + 5/100)
    else p4
  let p6 : Nat × ℚ :=
    if f.energyVariance > 100 ∧ f.energyVariance < 10000 then
      (p5.1 + 1, p5.2 + 5/100)
    else p5
  if f.rms > s.backgroundNoise * 3 then (p6.1 + 1, p6.2 + 5/100) else p6

/-- advancedVoiceDetection (src/utils/vadDetector.js lines 164-234): after
the checks, voiceConfidence := min 1 confidence, spectralBalance and
voiceActivityStrength are stored, requiredScore is 6 when the capped
confidence exceeds 0.7 and 8 otherwise, and the decision is
voiceScore >= requiredScore. -/
def advancedVoiceDetection (s : VADState) (f : Features) : VADState × Bool :=
  let score : Nat := (voiceChecks s f).1
  let conf : ℚ := min 1 (voiceChecks s f).2
  let s2 : VADState :=
    { s with voiceConfidence := conf, spectralBalance := f.spectralBalance,
             voiceActivityStrength := score }
  let requiredScore : Nat := if conf > 7/10 then 6 else 8
  (s2, decide (score ≥ requiredScore))

/-- The guard of detect (src/utils/vadDetector.js lines 42-43): a missing
(null/undefined) buffer or one shorter than frameSize returns false
immediately, before any feature extraction or state update; otherwise the
rest of the method body runs.  The body (feature extraction, threshold
update, scoring, smoothing) is passed as a function parameter, so the
theorems about the guard hold for the actual body regardless of its
numeric behaviour. -/
def detect (body : VADState → List Nat → VADState × Bool)
    (s : VADState) (audioData : Option (List Nat)) : VADState × Bool :=
  match audioData with
  | none => (s, false)
  | some d => if d.length < s.frameSize then (s, false) else body s d

end VADDetector

namespace Part000

/-- The temporal-smoothing state of the VADDetector class in
src/unnamed/part_000 (constructor lines 2-30): requiredVoicedFrames 2,
maxRecent = smoothingWindow = 5, hangoverTime 3. -/
structure SmootherState where
  requiredVoicedFrames : Nat
  maxRecent : Nat
  hangoverTime : Nat
  consecutiveVoiced : Nat
  consecutiveSilence : Nat
  hangoverCounter : Nat
  recentVoices : List Bool
deriving Repr, DecidableEq

/-- Fresh smoother with the constructor defaults of part_000. -/
def smootherInit : SmootherState where
  requiredVoicedFrames := 2
  maxRecent := 5
  hangoverTime := 3
  consecutiveVoiced := 0
  consecutiveSilence := 0
  hangoverCounter := 0
  recentVoices := []

/-- applyTemporalSmoothing from src/unnamed/part_000 (lines 132-166):
voiced frames reset the hangover counter to hangoverTime; silent frames
during hangover decrement it and are overridden to voiced; the (possibly
overridden) decision is pushed into the bounded recentVoices window and a
vote count against a context-dependent requirement yields the smoothed
output. -/
def applyTemporalSmoothing (s : SmootherState) (isVoiced : Bool) :
    SmootherState × Bool :=
  let su : SmootherState × Bool :=
    if isVoiced then
      ({ s with consecutiveVoiced := s.consecutiveVoiced + 1,
                consecutiveSilence := 0,
                hangoverCounter := s.hangoverTime }, true)
    else
      let s1 := { s with consecutiveVoiced := 0,
                         consecutiveSilence := s.consecutiveSilence + 1 }
      if s1.hangoverCounter > 0 then
        ({ s1 with hangoverCounter := s1.hangoverCounter - 1 }, true)
      else
        (s1, false)
  let pushed : List Bool := su.1.recentVoices ++ [su.2]
  let recent : List Bool :=
    if pushed.length > su.1.maxRecent then pushed.drop 1 else pushed
  let s2 : SmootherState := { su.1 with recentVoices := recent }
  let voicedCount : Nat := (recent.filter id).length
  let out : Bool :=
    if s2.consecutiveVoiced ≥ max 1 (s2.requiredVoicedFrames - 1) then
      decide (voicedCount ≥ max 1 (s2.requiredVoicedFrames - 1))
    else if s2.hangoverCounter > 0 then
      decide (voicedCount ≥ 1)
    else
      decide (voicedCount ≥ s2.requiredVoicedFrames)
  (s2, out)

/-- The per-frame smoothed outputs produced by running a decision sequence
through applyTemporalSmoothing. -/
def runSmoothing (s : SmootherState) : List Bool → List Bool
  | [] => []
  | d :: ds =>
    let r := applyTemporalSmoothing s d
    r.2 :: runSmoothing r.1 ds

end Part000

namespace Part001

/-- The sum of squared Int16LE samples accumulated by the detect loop of
src/unnamed/part_001 (lines 13-18). -/
def sumSquares : List Nat → ℚ
  | b0 :: b1 :: rest => (readInt16LE b0 b1 : ℚ) ^ 2 + sumSquares rest
  | _ => 0

/-- detect from src/unnamed/part_001 (lines 7-21, the minimal VADDetector
variant with threshold 500 and frameSize 160): there is no null guard, so
an absent buffer throws a TypeError when audioData.length is read
(modelled as none); an undersized buffer returns false; otherwise the rms
of the Int16LE samples is compared with the threshold (an odd-length
buffer makes the final readInt16LE throw).  rms > 500 is expressed
equivalently on squares as meanSquare > 250000, since rms is the
nonnegative square root of meanSquare. -/
def detect (audioData : Option (List Nat)) : Option Bool :=
  match audioData with
  | none => none
  | some d =>
    if d.length < 160 then some false
    else if d.length % 2 = 1 then none
    else some (decide (sumSquares d / ((d.length : ℚ) / 2) > 250000))

end Part001

namespace SessionManager

/-- SESSION_TIMEOUT_MS from src/services/sessionManager.js line 3: 10
minutes in milliseconds. -/
def SESSION_TIMEOUT_MS : Int := 10 * 60 * 1000

/-- One sweep of startAutoCleanup (src/services/sessionManager.js lines
47-57) over the session table, modelled as a list of (callSid, createdAt)
entries: every session with now - createdAt > SESSION_TIMEOUT_MS is passed
to deleteSession, the rest survive. -/
def sweepSessions (now : Int) (sessions : List (Nat × Int)) : List (Nat × Int) :=
  sessions.filter (fun s => decide (¬ (now - s.2 > SESSION_TIMEOUT_MS)))

end SessionManager

namespace AppServer

/-- The recording state of the plain AudioProcessor
(src/services/audioProcessor.js lines 11-40 and src/utils/audioUtils.js
lines 7-19): utterance buffer, recording flag, silence counter and the
configured silence threshold (30 in the services variant, 50 in the
audioUtils variant). -/
structure ProcState where
  audioBuffer : List (List Int)
  isRecording : Bool
  silenceCounter : Nat
  silenceThreshold : Nat
deriving Repr, DecidableEq

/-- One call of the plain processAudio (src/services/audioProcessor.js
lines 42-68, same control flow as src/utils/audioUtils.js lines 21-45) on
a frame whose VAD decision is hasVoice and whose decoded PCM is pcmData.
A voiced frame starts/continues recording and appends the frame; a silent
frame while recording bumps the silence counter and, at the threshold,
runs processRecording (which hands off the nonempty buffer, returned as
the second component) followed by resetRecording. -/
def processAudioStep (hasVoice : Bool) (pcmData : List Int) (p : ProcState) :
    ProcState × Option (List (List Int)) :=
  if hasVoice then
    ({ p with isRecording := true, silenceCounter := 0,
              audioBuffer := p.audioBuffer ++ [pcmData] }, none)
  else if p.isRecording then
    if p.silenceCounter + 1 ≥ p.silenceThreshold then
      ({ p with audioBuffer := [], isRecording := false, silenceCounter := 0 },
       if p.audioBuffer.isEmpty then none else some p.audioBuffer)
    else
      ({ p with silenceCounter := p.silenceCounter + 1 }, none)
  else
    (p, none)

/-- A session entry of global.activeSessions as created in src/app.js lines
58-62: the isProcessing flag plus the processor state. -/
structure SessionState where
  isProcessing : Bool
  proc : ProcState
deriving Repr, DecidableEq

/-- The media case of the WebSocket message handler (src/app.js lines
65-70): when the session's isProcessing flag is set the frame is consumed
without calling processAudio at all; otherwise processAudio runs. -/
def handleMedia (hasVoice : Bool) (pcmData : List Int) (sess : SessionState) :
    SessionState × Option (List (List Int)) :=
  if sess.isProcessing then
    (sess, none)
  else
    let r := processAudioStep hasVoice pcmData sess.proc
    ({ sess with proc := r.1 }, r.2)

/-- A concrete idle processor state used by the witnesses. -/
def procIdle : ProcState where
  audioBuffer := [[5]]
  isRecording := false
  silenceCounter := 0
  silenceThreshold := 30

/-- A session whose isProcessing flag is set. -/
def sessBusy : SessionState where
  isProcessing := true
  proc := procIdle

/-- A session whose isProcessing flag is clear. -/
def sessFree : SessionState where
  isProcessing := false
  proc := procIdle

end AppServer

namespace Enhanced

/-- Int16LE serialisation of a PCM sample list, as performed by the
writeInt16LE loops that build the byte buffers handed to createWavBuffer. -/
def samplesToBytes : List Int → List Nat
  | [] => []
  | x :: xs =>
    let u : Nat := (x % 65536).toNat
    u % 256 :: u / 256 :: samplesToBytes xs

/-- The recursion of applyNoiseReduction (src/services/audioProcessor.js
lines 568-592) over the samples, carrying the running mean: with alpha =
0.01, runningMean is updated toward the sample, the DC-removed sample is
halved when its magnitude is below 200, and the result is rounded. -/
def applyNoiseReductionGo (runningMean : ℚ) : List Int → List Int
  | [] => []
  | x :: xs =>
    let rm : ℚ := (1/100) * (x : ℚ) + (1 - 1/100) * runningMean
    let clean : ℚ := (x : ℚ) - rm
    let clean2 : ℚ := if |clean| < 200 then clean * (1/2) else clean
    round clean2 :: applyNoiseReductionGo rm xs

/-- applyNoiseReduction (src/services/audioProcessor.js lines 568-592):
buffers shorter than 4 bytes (2 samples) are returned unchanged, otherwise
the DC-removal pass runs with runningMean starting at 0. -/
def applyNoiseReduction (samples : List Int) : List Int :=
  if samples.length < 2 then samples else applyNoiseReductionGo 0 samples

/-- Sum of squared samples, as accumulated by the hasVoiceInWav loop. -/
def sumSq : List Int → ℚ
  | [] => 0
  | x :: xs => (x : ℚ) ^ 2 + sumSq xs

/-- Number of samples whose magnitude exceeds c (the peakCount and
significantSamples accumulators of hasVoiceInWav). -/
def countGt (c : ℚ) : List Int → Nat
  | [] => 0
  | x :: xs => (if |(x : ℚ)| > c then 1 else 0) + countGt c xs

/-- The spectralComplexity accumulator of hasVoiceInWav (lines 648-653):
for every interior sample, the absolute difference between its magnitude
and the mean of its neighbours' magnitudes. -/
def complexitySum : List Int → ℚ
  | a :: b :: c :: rest =>
    |(|(b : ℚ)| - (|(a : ℚ)| + |(c : ℚ)|) / 2)| + complexitySum (b :: c :: rest)
  | _ => 0

/-- hasVoiceInWav (src/services/audioProcessor.js lines 622-681) on the
PCM samples behind the 44-byte header.  The comparisons of rms with the
nonnegative thresholds (gruntRejectionThreshold, threshold * 1.5 and
threshold, each nonnegative at both call sites) are expressed equivalently
on squares: rms > c iff meanSquare > c ^ 2. -/
def hasVoiceInWav (wavBuffer : List Nat) (threshold : ℚ)
    (gruntRejectionThreshold minSpectralComplexity : ℚ) : Bool :=
  let pcmBytes := wavBuffer.drop 44
  if pcmBytes.length < 2 then false
  else
    let samples := pcmSamplesOfBytes pcmBytes
    let n : ℚ := (samples.length : ℚ)
    let meanSq : ℚ := sumSq samples / n
    let peakFrac : ℚ := (countGt 1200 samples : ℚ) / n
    let significantFrac : ℚ := (countGt 500 samples : ℚ) / n
    let avgComplexity : ℚ := complexitySum samples / n
    if meanSq > gruntRejectionThreshold ^ 2 ∧ avgComplexity < minSpectralComplexity ∧
        peakFrac < 5/1000 then
      false
    else if (pcmBytes.length : ℚ) / 16000 < 3/10 then
      decide (meanSq > (threshold * (3/2)) ^ 2 ∧ significantFrac > 15/100 ∧
        avgComplexity > minSpectralComplexity * (3/2))
    else
      decide (meanSq > threshold ^ 2 ∧ peakFrac > 2/1000 ∧
        significantFrac > 12/100 ∧ avgComplexity > minSpectralComplexity)

/-- processRecording of the enhanced AudioProcessor
(src/services/audioProcessor.js lines 422-565), reduced to the value it
hands to transcriptionService.transcribe: none when the buffer is empty,
when the combined audio is shorter than 0.2 s (the minimum-duration gate
at lines 432-438), when it exceeds maxAudioLength = 160000 bytes (the
truncation path reassigns a const binding and therefore throws, and the
error is caught by the surrounding handler), or when hasVoiceInWav rejects
the cleaned WAV; otherwise the WAV buffer that is transcribed.  Frames are
the decoded PCM sample lists pushed by processAudio; a frame of k samples
occupies 2k bytes. -/
def processRecording (frames : List (List Int)) : Option (List Nat) :=
  if frames.isEmpty then none
  else if ((2 * frames.flatten.length : ℚ) / 16000) < 1/5 then none
  else if 2 * frames.flatten.length > 160000 then none
  else
    let cleaned := applyNoiseReduction frames.flatten
    let wav := createWavBuffer (samplesToBytes cleaned) 8000
    let voiceThreshold : ℚ :=
      if ((2 * frames.flatten.length : ℚ) / 16000) < 7/10 then 400 else 1000
    if hasVoiceInWav wav voiceThreshold 800 (3/10) then some wav else none

/-- processRecording of the plain AudioProcessor
(src/services/audioProcessor.js lines 70-85): any nonempty buffer is
concatenated, wrapped in a WAV header and handed to
transcriptionService.transcribe, with no duration check of any kind. -/
def processRecordingPlain (frames : List (List Int)) : Option (List Nat) :=
  if frames.isEmpty then none
  else some (createWavBuffer (samplesToBytes frames.flatten) 8000)

end Enhanced

/-- C1: the mu-law round trip breaks the one-quantization-step bound.
Encoding the int16 sample 0 gives the mu-law byte 255, and both decoders in
the repository expand that byte to 132, an error of 132 where the
quantization step of exponent segment 0 is 8.  Encoding 32767 gives byte
144, which the part_004 decoder expands to 16004 (error 16763). -/
theorem mulaw_roundtrip_broken :
    pcmToMulawSample 0 = 255 ∧
    Part004.mulawToPcmSample (pcmToMulawSample 0) = 132 ∧
    AudioUtils.mulawToPcmSample (pcmToMulawSample 0) = 132 ∧
    pcmToMulawSample 32767 = 144 ∧
    Part004.mulawToPcmSample (pcmToMulawSample 32767) = 16004 ∧
    (8 : Int) < 132 - 0 := by
  decide

/-- Reconstructing a 32-bit value from its four little-endian bytes. -/
theorem u32le_reconstruct (n : Nat) (h : n < 4294967296) :
    n % 256 + 256 * (n / 256 % 256) + 65536 * (n / 65536 % 256) +
      16777216 * (n / 16777216 % 256) = n := by
  omega

set_option maxHeartbeats 2000000 in
/-- C7: in every buffer produced by createWavBuffer the RIFF chunk-size
field at byte offset 4 equals payload length + 36 and the data chunk
length field at byte offset 40 equals the PCM payload length (whenever the
32-bit fields can represent those lengths, as Buffer.writeUInt32LE
requires). -/
theorem wav_header_sizes (pcmData : List Nat) (sampleRate : Nat)
    (h : pcmData.length + 36 < 4294967296) :
    readUInt32LE (createWavBuffer pcmData sampleRate) 4 = pcmData.length + 36 ∧
    readUInt32LE (createWavBuffer pcmData sampleRate) 40 = pcmData.length := by
  constructor
  · show (36 + pcmData.length) % 256 + 256 * ((36 + pcmData.length) / 256 % 256) +
      65536 * ((36 + pcmData.length) / 65536 % 256) +
      16777216 * ((36 + pcmData.length) / 16777216 % 256) = pcmData.length + 36
    omega
  · show pcmData.length % 256 + 256 * (pcmData.length / 256 % 256) +
      65536 * (pcmData.length / 65536 % 256) +
      16777216 * (pcmData.length / 16777216 % 256) = pcmData.length
    omega

/-- C7 witness: the empty payload gives chunk-size 36 and data length 0. -/
theorem wav_header_sizes_witness :
    readUInt32LE (createWavBuffer [] 8000) 4 = 36 ∧
    readUInt32LE (createWavBuffer [] 8000) 40 = 0 :=
  wav_header_sizes [] 8000 (by decide)

/-- C8 counterexample: no MalformedFrame failure exists.  mulawToPcm maps
the empty frame to the empty frame and decodes the odd-length (length 1)
frame [144] without any error, and pcmToMulaw succeeds on the empty frame,
returning an empty buffer. -/
theorem frame_codec_no_malformed_failure :
    AudioUtils.mulawToPcm [] = [] ∧
    AudioUtils.mulawToPcm [144] = [7812] ∧
    AudioUtils.pcmToMulaw [] = some [] := by
  decide

/-- C8 amended: mulawToPcm succeeds on every input, including empty and
odd-length frames, producing exactly one sample per byte; pcmToMulaw
succeeds exactly on even-length input (including the empty frame) and its
failure on odd-length input is a runtime allocation/range error, not a
MalformedFrame result. -/
theorem frame_codec_totality (bs : List Nat) :
    (AudioUtils.mulawToPcm bs).length = bs.length ∧
    ((AudioUtils.pcmToMulaw bs).isSome ↔ bs.length % 2 = 0) := by
  constructor
  · induction bs with
    | nil => rfl
    | cons b t ih => simpa [AudioUtils.mulawToPcm] using ih
  · unfold AudioUtils.pcmToMulaw
    split <;> simp_all

/-- The post-early-return assignment always lands adaptiveThreshold in the
corridor [threshold/2, threshold*2] and leaves threshold untouched. -/
theorem updateAdaptiveThresholdTail_corridor (s : VADDetector.VADState)
    (h0 : 0 ≤ s.threshold) :
    (VADDetector.updateAdaptiveThresholdTail s).threshold = s.threshold ∧
    s.threshold * (1/2) ≤ (VADDetector.updateAdaptiveThresholdTail s).adaptiveThreshold ∧
    (VADDetector.updateAdaptiveThresholdTail s).adaptiveThreshold ≤ s.threshold * 2 := by
  unfold VADDetector.updateAdaptiveThresholdTail
  refine ⟨rfl, ?_, ?_⟩
  · exact le_min (le_max_right _ _) (by linarith)
  · exact min_le_right _ _

/-- One update step preserves the corridor invariant. -/
theorem updateAdaptiveThreshold_corridor (s : VADDetector.VADState) (x : ℚ)
    (h0 : 0 ≤ s.threshold)
    (h1 : s.threshold * (1/2) ≤ s.adaptiveThreshold)
    (h2 : s.adaptiveThreshold ≤ s.threshold * 2) :
    (VADDetector.updateAdaptiveThreshold s x).threshold = s.threshold ∧
    s.threshold * (1/2) ≤ (VADDetector.updateAdaptiveThreshold s x).adaptiveThreshold ∧
    (VADDetector.updateAdaptiveThreshold s x).adaptiveThreshold ≤ s.threshold * 2 := by
  unfold VADDetector.updateAdaptiveThreshold
  split
  · exact updateAdaptiveThresholdTail_corridor _ h0
  · split
    · exact ⟨rfl, h1, h2⟩
    · exact updateAdaptiveThresholdTail_corridor _ h0

/-- Folding updates over any rms list preserves the corridor invariant. -/
theorem foldl_updateAdaptiveThreshold_corridor (l : List ℚ) :
    ∀ s : VADDetector.VADState, 0 ≤ s.threshold →
      s.threshold * (1/2) ≤ s.adaptiveThreshold →
      s.adaptiveThreshold ≤ s.threshold * 2 →
      (l.foldl VADDetector.updateAdaptiveThreshold s).threshold = s.threshold ∧
      s.threshold * (1/2) ≤ (l.foldl VADDetector.updateAdaptiveThreshold s).adaptiveThreshold ∧
      (l.foldl VADDetector.updateAdaptiveThreshold s).adaptiveThreshold ≤ s.threshold * 2 := by
  induction l with
  | nil => exact fun s _ h1 h2 => ⟨rfl, h1, h2⟩
  | cons x xs ih =>
    intro s h0 h1 h2
    obtain ⟨e1, e2, e3⟩ := updateAdaptiveThreshold_corridor s x h0 h1 h2
    have := ih (VADDetector.updateAdaptiveThreshold s x) (e1 ▸ h0) (e1 ▸ e2) (e1 ▸ e3)
    simpa [List.foldl_cons, e1] using this

/-- C3: for every sequence of rms values fed to the adaptive threshold
tracker, starting from the constructor state, adaptiveThreshold stays
within [threshold*0.5, threshold*2] = [300, 1200] at every point (every
point of the run is the fold over some prefix, and the list is
arbitrary). -/
theorem adaptiveThreshold_corridor (l : List ℚ) :
    VADDetector.initState.threshold * (1/2) ≤ (VADDetector.trackRms l).adaptiveThreshold ∧
    (VADDetector.trackRms l).adaptiveThreshold ≤ VADDetector.initState.threshold * 2 := by
  have h := foldl_updateAdaptiveThreshold_corridor l VADDetector.initState
    (by norm_num [VADDetector.initState])
    (by norm_num [VADDetector.initState])
    (by norm_num [VADDetector.initState])
  exact ⟨h.2.1, h.2.2⟩

/-- C6: advancedVoiceDetection returns voiced exactly when the accumulated
integer score reaches 6 if the accumulated capped confidence exceeds 0.7,
and reaches 8 otherwise. -/
theorem advancedVoiceDetection_decision (s : VADDetector.VADState)
    (f : VADDetector.Features) :
    (VADDetector.advancedVoiceDetection s f).2 = true ↔
      (if (7 : ℚ)/10 < min 1 (VADDetector.voiceChecks s f).2
       then 6 ≤ (VADDetector.voiceChecks s f).1
       else 8 ≤ (VADDetector.voiceChecks s f).1) := by
  by_cases hc : (7 : ℚ)/10 < min 1 (VADDetector.voiceChecks s f).2 <;>
    simp [VADDetector.advancedVoiceDetection, hc, ge_iff_le]

/-- C5 counterexample: starting from the fresh part_000 smoother (hangover
length 3), the decision sequence voiced, voiced, then four silent frames
produces a voiced smoothed output on every one of the six frames: the
fourth post-voice silent frame is still reported voiced, not silent as the
claim states, because the 5-wide voting window is still majority-voiced. -/
theorem hangover_sixth_frame_still_voiced :
    Part000.runSmoothing Part000.smootherInit
      [true, true, false, false, false, false] =
      [true, true, true, true, true, true] := by
  decide

/-- C5 amended: with hangover 3, the sequence voiced, voiced followed by
silent frames stays smoothed-voiced through the first 3 post-voice silent
frames (the hangover), remains voiced for three further silent frames
while the 5-wide voting window drains (on the 6th silent frame the window
still holds 2 voiced entries, meeting requiredVoicedFrames = 2), and first
reports silence on the 7th consecutive silent frame. -/
theorem hangover_flips_on_seventh_silent_frame :
    Part000.runSmoothing Part000.smootherInit
      [true, true, false, false, false, false, false, false, false] =
      [true, true, true, true, true, true, true, true, false] := by
  decide

/-- C9: a session created at time T with no later activity is removed by a
sweep that runs strictly after T plus SESSION_TIMEOUT_MS and survives a
sweep that runs strictly before it. -/
theorem sweep_deletes_only_expired (sessions : List (Nat × Int)) (sid : Nat)
    (T now : Int) (hmem : (sid, T) ∈ sessions) :
    (T + SessionManager.SESSION_TIMEOUT_MS < now →
      (sid, T) ∉ SessionManager.sweepSessions now sessions) ∧
    (now < T + SessionManager.SESSION_TIMEOUT_MS →
      (sid, T) ∈ SessionManager.sweepSessions now sessions) := by
  constructor
  · intro hgt hin
    have h2 := (List.mem_filter.mp hin).2
    simp only [decide_eq_true_eq, not_lt, SessionManager.SESSION_TIMEOUT_MS] at h2
    simp only [SessionManager.SESSION_TIMEOUT_MS] at hgt
    omega
  · intro hlt
    refine List.mem_filter.mpr ⟨hmem, ?_⟩
    simp only [decide_eq_true_eq, not_lt, SessionManager.SESSION_TIMEOUT_MS]
    simp only [SessionManager.SESSION_TIMEOUT_MS] at hlt
    omega

/-- C9 witness: with the 10-minute timeout, a session created at 0 is gone
from a sweep at 600001 ms and survives a sweep at 599999 ms. -/
theorem sweep_deletes_only_expired_witness :
    (0, (0 : Int)) ∉ SessionManager.sweepSessions 600001 [(0, (0 : Int))] ∧
    (0, (0 : Int)) ∈ SessionManager.sweepSessions 599999 [(0, (0 : Int))] :=
  ⟨(sweep_deletes_only_expired [(0, 0)] 0 0 600001 (by simp)).1 (by decide),
   (sweep_deletes_only_expired [(0, 0)] 0 0 599999 (by simp)).2 (by decide)⟩

/-- C2: while a session's isProcessing flag is true the media handler
consumes the frame without touching the processor state at all (no buffer
append, no recording start, no handoff); once the flag is cleared, a
voiced frame is appended to the utterance buffer again and recording is
(re)started. -/
theorem no_overlap_while_processing (hv : Bool) (pcmData : List Int)
    (sess : AppServer.SessionState) :
    (sess.isProcessing = true →
      AppServer.handleMedia hv pcmData sess = (sess, none)) ∧
    (sess.isProcessing = false → hv = true →
      (AppServer.handleMedia hv pcmData sess).1.proc.audioBuffer =
        sess.proc.audioBuffer ++ [pcmData] ∧
      (AppServer.handleMedia hv pcmData sess).1.proc.isRecording = true) := by
  constructor
  · intro h
    simp [AppServer.handleMedia, h]
  · intro h hvt
    subst hvt
    simp [AppServer.handleMedia, AppServer.processAudioStep, h]

/-- C2 witness: with the flag set the busy session is returned unchanged
and nothing is handed off; with the flag clear a voiced frame lands in the
buffer. -/
theorem no_overlap_while_processing_witness :
    AppServer.handleMedia true [7] AppServer.sessBusy = (AppServer.sessBusy, none) ∧
    (AppServer.handleMedia true [7] AppServer.sessFree).1.proc.audioBuffer =
      AppServer.sessFree.proc.audioBuffer ++ [[7]] :=
  ⟨(no_overlap_while_processing true [7] AppServer.sessBusy).1 rfl,
   ((no_overlap_while_processing true [7] AppServer.sessFree).2 rfl rfl).1⟩

/-- C4 counterexample: the plain processRecording hands a one-frame
utterance of 160 samples (320 bytes, 0.02 s at 8 kHz 16-bit, far below the
0.2 s floor) to the transcription collaborator. -/
theorem plain_processRecording_hands_off_short :
    (Enhanced.processRecordingPlain [List.replicate 160 (100 : Int)]).isSome = true ∧
    ((2 * ([List.replicate 160 (100 : Int)].flatten.length) : ℚ) / 16000 < 1/5) := by
  constructor
  · rfl
  · simp only [List.flatten_cons, List.flatten_nil, List.append_nil,
      List.length_replicate]
    norm_num

/-- C4 amended: the enhanced processRecording never hands an utterance
whose buffered frames total less than 0.2 s of 8 kHz 16-bit audio to the
transcription collaborator; the plain processRecording variant has no such
gate and hands off any nonempty buffer. -/
theorem enhanced_processRecording_min_duration (frames : List (List Int))
    (h : ((2 * frames.flatten.length : ℚ) / 16000) < 1/5) :
    Enhanced.processRecording frames = none := by
  unfold Enhanced.processRecording
  split_ifs with h1 <;> rfl

/-- C4 witness: a single 160-sample frame (0.02 s) is rejected by the
enhanced processRecording. -/
theorem enhanced_processRecording_min_duration_witness :
    Enhanced.processRecording [List.replicate 160 (100 : Int)] = none :=
  enhanced_processRecording_min_duration [List.replicate 160 (100 : Int)]
    (by simp only [List.flatten_cons, List.flatten_nil, List.append_nil,
          List.length_replicate]
        norm_num)

/-- C10 counterexample: the minimal-variant detect of src/unnamed/part_001
does not return false on an absent (null/undefined) input; it throws when
it reads audioData.length (modelled as none). -/
theorem minimal_detect_throws_on_absent_input :
    Part001.detect none = none ∧ Part001.detect none ≠ some false := by
  decide

/-- C10 amended: for the main VADDetector, detect on an absent or
undersized input returns false without mutating any detector state, no
matter what the method body would do, and processAudio on a frame whose
VAD decision is false never appends the frame (the buffer is unchanged or
flushed empty) and never starts a recording; the minimal variant returns
false on undersized input but throws on absent input. -/
theorem detect_undersized_input_safe
    (body : VADDetector.VADState → List Nat → VADDetector.VADState × Bool)
    (s : VADDetector.VADState) (audioData : Option (List Nat))
    (h : audioData = none ∨ ∃ d, audioData = some d ∧ d.length < s.frameSize)
    (p : AppServer.ProcState) (pcmData : List Int) :
    VADDetector.detect body s audioData = (s, false) ∧
    ((AppServer.processAudioStep (VADDetector.detect body s audioData).2 pcmData p).1.audioBuffer
        = p.audioBuffer ∨
     (AppServer.processAudioStep (VADDetector.detect body s audioData).2 pcmData p).1.audioBuffer
        = []) ∧
    (p.isRecording = false →
      AppServer.processAudioStep (VADDetector.detect body s audioData).2 pcmData p = (p, none)) ∧
    (∀ bs : List Nat, bs.length < 160 → Part001.detect (some bs) = some false) := by
  have hd : VADDetector.detect body s audioData = (s, false) := by
    rcases h with h | ⟨d, rfl, hlen⟩
    · subst h; rfl
    · simp [VADDetector.detect, hlen]
  refine ⟨hd, ?_, ?_, ?_⟩
  · rw [hd]
    by_cases hr : p.isRecording
    · simp only [AppServer.processAudioStep, Bool.false_eq_true, if_false, hr, if_true]
      split
      · exact Or.inr rfl
      · exact Or.inl rfl
    · simp [AppServer.processAudioStep, hr]
  · intro hrec
    rw [hd]
    simp [AppServer.processAudioStep, hrec]
  · intro bs hlen
    simp [Part001.detect, hlen]

/-- C10 witness: a 3-byte buffer is below both frame sizes; the main
detect leaves the constructor state untouched and returns false, and the
minimal detect returns false. -/
theorem detect_undersized_input_safe_witness :
    VADDetector.detect (fun st d => (st, decide (d.length = 0)))
      VADDetector.initState (some [1, 2, 3]) = (VADDetector.initState, false) ∧
    Part001.detect (some [1, 2, 3]) = some false :=
  have h := detect_undersized_input_safe (fun st d => (st, decide (d.length = 0)))
    VADDetector.initState (some [1, 2, 3])
    (Or.inr ⟨[1, 2, 3], rfl, by decide⟩) AppServer.procIdle [0]
  ⟨h.1, h.2.2.2 [1, 2, 3] (by decide)⟩
